import Mathlib

/-!
Verification of the zkSync Hardhat deployment tutorial repository.

The repository consists of one deploy script (`deploy/deploy.ts`) and, in its
README, the `Greeter` Solidity contract the script deploys.  We embed:

* the `Greeter` contract as a pure state-transition model (`GreeterState`,
  `Greeter.construct`, `Greeter.greet`, `Greeter.setGreeting`);
* the deploy script as a trace semantics: each external SDK/network call is
  resolved by an `Env` oracle, and a run produces the ordered list of emitted
  `Event`s together with an `Outcome` (normal termination or termination by an
  unhandled rejection of an awaited call).
-/

/-! ## The Greeter contract (from `contracts/Greeter.sol` shown in the README)

```sol
contract Greeter {
    string private greeting;
    constructor(string memory _greeting) { greeting = _greeting; }
    function greet() public view returns (string memory) { return greeting; }
    function setGreeting(string memory _greeting) public { greeting = _greeting; }
}
```
-/

/-- The contract's storage: the single `string private greeting` field. -/
structure GreeterState where
  greeting : String
  deriving DecidableEq, Repr

namespace Greeter

/-- `constructor(string memory _greeting) { greeting = _greeting; }` -/
def construct (g : String) : GreeterState := { greeting := g }

/-- `function greet() public view returns (string memory) { return greeting; }`
A Solidity call is modelled as taking the pre-state and returning the
post-state together with the returned value, so that the frame condition
(the state is unchanged) is expressible. -/
def greet (st : GreeterState) : GreeterState × String := (st, st.greeting)

/-- `function setGreeting(string memory _greeting) public { greeting = _greeting; }`
The caller (`msg.sender`) is part of the call context and the result is an
`Option` so that a revert would be expressible (`none`); the body has no
`require`/`revert` and never reads the caller, it only assigns the field. -/
def setGreeting (_caller : String) (_st : GreeterState) (g : String) :
    Option GreeterState := some { greeting := g }

end Greeter

/-! ## The amount: `ethers.utils.parseEther("0.001")`

`parseEther` converts a decimal string into wei (18 decimals).  Modelled from
the spec and the ethers documentation (the library itself is an external
dependency, not part of this repository): split at the decimal point, both
sides are digit strings, the fraction has at most 18 digits, and the result is
`int * 10^18 + frac * 10^(18 - len frac)`. -/

/-- The numeric value of a decimal digit character. -/
def digitVal (c : Char) : Option Nat :=
  if c.isDigit then some (c.toNat - 48) else none

/-- Accumulate a digit string into a natural number; fails on a non-digit. -/
def digitsToNatAux : Nat → List Char → Option Nat
  | acc, [] => some acc
  | acc, c :: cs =>
    match digitVal c with
    | some d => digitsToNatAux (acc * 10 + d) cs
    | none => none

/-- Parse a nonempty digit string. -/
def digitsToNat (cs : List Char) : Option Nat :=
  if cs.isEmpty then none else digitsToNatAux 0 cs

/-- Split a character list at the first dot, if any. -/
def splitOnDot : List Char → List Char × Option (List Char)
  | [] => ([], none)
  | c :: cs =>
    if c = '.' then ([], some cs)
    else
      let r := splitOnDot cs
      (c :: r.1, r.2)

/-- Modelled from the spec: `ethers.utils.parseEther`, which converts a
decimal ether string to wei (`none` models the throw on malformed input). -/
def parseEther (s : String) : Option Nat :=
  match splitOnDot s.data with
  | (i, none) => (digitsToNat i).map (· * 10 ^ 18)
  | (i, some f) =>
    if 18 < f.length then none
    else
      match digitsToNat i, digitsToNat f with
      | some iv, some fv => some (iv * 10 ^ 18 + fv * 10 ^ (18 - f.length))
      | _, _ => none

/-! ## The deploy script (`deploy/deploy.ts`) as a trace semantics -/

/-- `utils.ETH_ADDRESS` of the zksync-web3 SDK. -/
def ETH_ADDRESS : String := "0x0000000000000000000000000000000000000000"

/-- The constructor argument literal: `const greeting = "I'm a simple smart contract!";` -/
def greeting : String := "I\x27m a simple smart contract!"

/-- The setter argument literal: `const newGreeting = "I was deployed on zkSync using HardHat!";` -/
def newGreeting : String := "I was deployed on zkSync using HardHat!"

/-- Observable events of one run of the script, in program order:
console output and the external SDK/network calls. -/
inductive Event where
  /-- `console.log` -/
  | log (msg : String)
  /-- `console.error` -/
  | logError (msg : String)
  /-- `new Wallet(secret)` -/
  | newWallet (secret : String)
  /-- `deployer.loadArtifact(name)` -/
  | loadArtifact (name : String)
  /-- `deployer.zkWallet.deposit({to, token, amount})`; `recipient` is the
  `to` field of the argument object. -/
  | deposit (recipient token : String) (amount : Nat)
  /-- `depositHandle.wait()` -/
  | depositWait
  /-- `deployer.deploy(artifact, ctorArgs)` -/
  | deploy (artifact : String) (ctorArgs : List String)
  /-- `greeterContract.greet()` -/
  | greetCall
  /-- `greeterContract.setGreeting(s)` -/
  | setGreetingCall (s : String)
  /-- `setNewGreetingHandle.wait()` -/
  | setGreetingWait
  deriving DecidableEq, Repr

/-- How a run ends: `normal` is the zero-status return of the async function,
`rejected` is process termination by an unhandled rejection of an awaited
external call. -/
inductive Outcome where
  | normal
  | rejected
  deriving DecidableEq, Repr

/-- The environment resolving every external call of one run: whether each
awaited SDK/network call succeeds, the values it returns, and the
SDK-provided wallet and contract addresses. -/
structure Env where
  /-- `new Wallet(secret)` succeeds inside the SDK. -/
  walletOk : Bool
  /-- the wallet's own address, `deployer.zkWallet.address`. -/
  walletAddress : String
  /-- `loadArtifact` resolves. -/
  loadArtifactOk : Bool
  /-- the `deposit` call resolves. -/
  depositOk : Bool
  /-- `depositHandle.wait()` resolves (the deposit finalizes). -/
  depositWaitOk : Bool
  /-- `deployer.deploy` resolves. -/
  deployOk : Bool
  /-- the deployed contract's address. -/
  contractAddress : String
  /-- result of the first `greet()` call (`none` = rejection). -/
  greet1 : Option String
  /-- the `setGreeting` call resolves. -/
  setGreetingOk : Bool
  /-- `setNewGreetingHandle.wait()` resolves. -/
  setWaitOk : Bool
  /-- result of the second `greet()` call (`none` = rejection). -/
  greet2 : Option String

/-- The comparison-and-log step the script performs after each `greet()` call:
`if (got == expected) console.log(...) else console.error(...)`. -/
def greetReport (got expected : String) : List Event :=
  if got = expected then [Event.log ("The contract says: " ++ expected ++ "!")]
  else [Event.logError ("Contract said something unexpected: " ++ got)]

/-- Lines 48–62: `setGreeting(newGreeting)`, `await ...wait()`, second
`greet()` and its comparison. -/
def setStage (env : Env) : List Event × Outcome :=
  let e0 := [Event.log "Setting a new variable...", Event.setGreetingCall newGreeting]
  if env.setGreetingOk then
    let e1 := e0 ++ [Event.setGreetingWait]
    if env.setWaitOk then
      let e2 := e1 ++ [Event.greetCall]
      match env.greet2 with
      | some g2 => (e2 ++ greetReport g2 newGreeting, Outcome.normal)
      | none => (e2, Outcome.rejected)
    else (e1, Outcome.rejected)
  else (e0, Outcome.rejected)

/-- Lines 39–46: first `greet()` call and its comparison, then the setter part. -/
def greetStage (env : Env) : List Event × Outcome :=
  let e0 := [Event.greetCall]
  match env.greet1 with
  | some g1 =>
    let r := setStage env
    (e0 ++ greetReport g1 greeting ++ r.1, r.2)
  | none => (e0, Outcome.rejected)

/-- Lines 28–37: completion log, `deployer.deploy(artifact, [greeting])` and
the address log, then the call part. -/
def deployStage (env : Env) : List Event × Outcome :=
  let e0 := [Event.log "Bridge complete, deploying contract...",
             Event.deploy "Greeter" [greeting]]
  if env.deployOk then
    let e1 := e0 ++ [Event.log ("Greeter was deployed to " ++ env.contractAddress
                                ++ " on zkSync!")]
    let r := greetStage env
    (e1 ++ r.1, r.2)
  else (e0, Outcome.rejected)

/-- Lines 17–27: the bridging log, `parseEther("0.001")`, the `deposit` call to
the wallet's own address, and `await depositHandle.wait()`, then deployment. -/
def depositStage (env : Env) : List Event × Outcome :=
  let e0 := [Event.log "Bridging funds from Goerli to zkSync..."]
  match parseEther "0.001" with
  | some amt =>
    let e1 := e0 ++ [Event.deposit env.walletAddress ETH_ADDRESS amt]
    if env.depositOk then
      let e2 := e1 ++ [Event.depositWait]
      if env.depositWaitOk then
        let r := deployStage env
        (e2 ++ r.1, r.2)
      else (e2, Outcome.rejected)
    else (e1, Outcome.rejected)
  | none => (e0, Outcome.rejected)

/-- The whole default-exported async function, with the wallet-secret literal
abstracted as a parameter: banner log, `new Wallet(secret)`,
`deployer.loadArtifact("Greeter")`, then the deposit stage. -/
def deployScriptWith (env : Env) (secret : String) : List Event × Outcome :=
  let e0 := [Event.log "Running deploy script for this contract on zkSync!",
             Event.newWallet secret]
  if env.walletOk then
    let e1 := e0 ++ [Event.loadArtifact "Greeter"]
    if env.loadArtifactOk then
      let r := depositStage env
      (e1 ++ r.1, r.2)
    else (e1, Outcome.rejected)
  else (e0, Outcome.rejected)

/-- The script as written, with its hard-coded `"PRIVATE_KEY"` literal. -/
def deployScript (env : Env) : List Event × Outcome :=
  deployScriptWith env "PRIVATE_KEY"

/-- Every awaited external call of the run succeeds. -/
def Env.allOk (env : Env) : Prop :=
  env.walletOk = true ∧ env.loadArtifactOk = true ∧ env.depositOk = true ∧
  env.depositWaitOk = true ∧ env.deployOk = true ∧ env.greet1.isSome = true ∧
  env.setGreetingOk = true ∧ env.setWaitOk = true ∧ env.greet2.isSome = true

/-- `true` exactly on the two finalization-wait events of the script. -/
def isWaitEvent : Event → Bool
  | Event.depositWait => true
  | Event.setGreetingWait => true
  | _ => false

/-- `true` exactly on deposit-call events. -/
def isDepositEvent : Event → Bool
  | Event.deposit _ _ _ => true
  | _ => false

/-- Replace the secret payload of a wallet-construction event, to state that
the rest of the trace does not depend on the secret. -/
def eraseSecret : Event → Event
  | Event.newWallet _ => Event.newWallet ""
  | e => e

/-- A concrete run in which every external call succeeds and the contract
answers both `greet()` calls with the values the script expects. -/
def envHappy : Env :=
  { walletOk := true, walletAddress := "0xWALLET", loadArtifactOk := true,
    depositOk := true, depositWaitOk := true, deployOk := true,
    contractAddress := "0xCONTRACT", greet1 := some greeting,
    setGreetingOk := true, setWaitOk := true, greet2 := some newGreeting }

/-- A concrete run in which the first `greet()` answers an unexpected value. -/
def envMismatch : Env := { envHappy with greet1 := some "oops" }

/-! ## Helper lemmas -/

lemma parseEther_point001 : parseEther "0.001" = some 1000000000000000 := rfl

lemma greetReport_filter_dep (a b : String) :
    (greetReport a b).filter isDepositEvent = [] := by
  unfold greetReport; split <;> rfl

lemma setStage_filter_dep (env : Env) :
    (setStage env).1.filter isDepositEvent = [] := by
  unfold setStage
  cases h1 : env.setGreetingOk <;> cases h2 : env.setWaitOk <;>
    cases h3 : env.greet2 <;>
    simp [h1, h2, h3, greetReport_filter_dep, isDepositEvent]

lemma greetStage_filter_dep (env : Env) :
    (greetStage env).1.filter isDepositEvent = [] := by
  unfold greetStage
  cases h : env.greet1 <;>
    simp [h, greetReport_filter_dep, setStage_filter_dep, isDepositEvent]

lemma deployStage_filter_dep (env : Env) :
    (deployStage env).1.filter isDepositEvent = [] := by
  unfold deployStage
  cases h : env.deployOk <;> simp [h, greetStage_filter_dep, isDepositEvent]

lemma deposit_not_mem_deployStage (env : Env) (r t : String) (a : Nat) :
    Event.deposit r t a ∉ (deployStage env).1 := by
  intro hm
  have := List.filter_eq_nil_iff.mp (deployStage_filter_dep env) _ hm
  simp [isDepositEvent] at this

/-! ## Claim theorems -/

/-- Claim C3: after the contract is deployed with one constructor argument
(the initial greeting string) and before `setGreeting` is called, the `greet`
getter returns exactly that constructor argument, and in particular for the
script's literal constructor argument. -/
theorem greet_returns_constructor_arg (g : String) :
    (Greeter.greet (Greeter.construct g)).2 = g ∧
    (Greeter.greet (Greeter.construct greeting)).2 = greeting :=
  ⟨rfl, rfl⟩

/-- Claim C9: `greet` is read-only: for every contract state it returns the
stored greeting and leaves the state (hence the greeting field) unchanged. -/
theorem greet_is_readonly (st : GreeterState) :
    Greeter.greet st = (st, st.greeting) :=
  rfl

/-- Claim C10: `setGreeting` unconditionally overwrites the stored greeting
with its argument for every caller, every pre-state and every input string:
it never reverts (`some`) and never keeps the old value. -/
theorem setGreeting_unconditional_overwrite (caller : String) (st : GreeterState)
    (s : String) :
    Greeter.setGreeting caller st s = some { greeting := s } :=
  rfl

/-- Claim C2: for every string argument, after a `setGreeting` transaction
finalizes, a subsequent `greet` call returns exactly that string. -/
theorem greet_after_setGreeting (caller : String) (st st' : GreeterState)
    (s : String) (h : Greeter.setGreeting caller st s = some st') :
    (Greeter.greet st').2 = s := by
  simp only [Greeter.setGreeting, Option.some.injEq] at h
  rw [← h]
  rfl

/-- Witness for C2, at the script's own setter literal. -/
theorem greet_after_setGreeting_witness :
    (Greeter.greet { greeting := newGreeting }).2 = newGreeting :=
  greet_after_setGreeting "0xWALLET" { greeting := greeting }
    { greeting := newGreeting } newGreeting rfl

/-- Claim C7: the signing credential is built from the provided secret with no
local validation by the script: the wallet-construction call is reached for
every secret, and neither the shape of the run's trace (the secret payload
aside) nor its outcome depends on the secret — a malformed secret can fail
only inside the SDK's wallet constructor (the `walletOk` verdict of the
environment). -/
theorem wallet_secret_no_local_validation (env : Env) (s1 s2 : String) :
    (deployScriptWith env s1).1.map eraseSecret
      = (deployScriptWith env s2).1.map eraseSecret ∧
    (deployScriptWith env s1).2 = (deployScriptWith env s2).2 ∧
    Event.newWallet s1 ∈ (deployScriptWith env s1).1 := by
  refine ⟨?_, ?_, ?_⟩
  · cases hw : env.walletOk <;> cases hl : env.loadArtifactOk <;>
      simp [deployScriptWith, eraseSecret, hw, hl]
  · cases hw : env.walletOk <;> cases hl : env.loadArtifactOk <;>
      simp [deployScriptWith, hw, hl]
  · cases hw : env.walletOk <;> cases hl : env.loadArtifactOk <;>
      simp [deployScriptWith, hw, hl]

/-- Claim C1: when the first read-only getter call returns a value different
from the expected literal, the script logs the mismatch with `console.error`
but continues with the remaining steps (the setter call and its finalization
wait still occur) and, all awaited calls succeeding, the run still ends with
a normal (zero-status) termination: a mismatch never raises a failure. -/
theorem mismatch_logs_error_and_run_continues (env : Env) (g1 : String)
    (hok : env.allOk) (hg : env.greet1 = some g1) (hne : g1 ≠ greeting) :
    (deployScript env).2 = Outcome.normal ∧
    Event.logError ("Contract said something unexpected: " ++ g1)
      ∈ (deployScript env).1 ∧
    Event.setGreetingCall newGreeting ∈ (deployScript env).1 ∧
    Event.setGreetingWait ∈ (deployScript env).1 := by
  obtain ⟨hw, hl, hdep, hdw, hdeploy, -, hset, hsw, hg2⟩ := hok
  obtain ⟨g2, hg2⟩ := Option.isSome_iff_exists.mp hg2
  refine ⟨?_, ?_, ?_, ?_⟩ <;>
    simp [deployScript, deployScriptWith, depositStage, deployStage, greetStage,
          setStage, greetReport, parseEther_point001, hw, hl, hdep, hdw, hdeploy,
          hg, hset, hsw, hg2, hne]

/-- Witness for C1: the concrete mismatching run. -/
theorem mismatch_logs_error_and_run_continues_witness :
    (deployScript envMismatch).2 = Outcome.normal ∧
    Event.logError ("Contract said something unexpected: " ++ "oops")
      ∈ (deployScript envMismatch).1 ∧
    Event.setGreetingCall newGreeting ∈ (deployScript envMismatch).1 ∧
    Event.setGreetingWait ∈ (deployScript envMismatch).1 :=
  mismatch_logs_error_and_run_continues envMismatch "oops"
    ⟨rfl, rfl, rfl, rfl, rfl, rfl, rfl, rfl, rfl⟩ rfl (by decide)

/-- Claim C8: the script is one sequential flow (a run is a single linear
trace of events) and a fully successful run contains exactly two
finalization suspension points, in order: the wait on the fund-transfer
deposit and the wait on the `setGreeting` transaction. -/
theorem exactly_two_wait_points (env : Env) (hok : env.allOk) :
    (deployScript env).1.filter isWaitEvent
      = [Event.depositWait, Event.setGreetingWait] := by
  obtain ⟨hw, hl, hdep, hdw, hdeploy, hg1, hset, hsw, hg2⟩ := hok
  obtain ⟨g1, hg1⟩ := Option.isSome_iff_exists.mp hg1
  obtain ⟨g2, hg2⟩ := Option.isSome_iff_exists.mp hg2
  by_cases h1 : g1 = greeting <;> by_cases h2 : g2 = newGreeting <;>
    simp [deployScript, deployScriptWith, depositStage, deployStage, greetStage,
          setStage, greetReport, parseEther_point001, hw, hl, hdep, hdw, hdeploy,
          hg1, hset, hsw, hg2, h1, h2, isWaitEvent]

/-- Witness for C8: the concrete all-successful run. -/
theorem exactly_two_wait_points_witness :
    (deployScript envHappy).1.filter isWaitEvent
      = [Event.depositWait, Event.setGreetingWait] :=
  exactly_two_wait_points envHappy ⟨rfl, rfl, rfl, rfl, rfl, rfl, rfl, rfl, rfl⟩

/-- Claim C4: the deploy call happens only after the deposit and its
finalization wait have completed successfully: whenever a deploy call occurs
in a run's trace, the deposit call and the deposit wait both succeeded, the
trace splits into a prefix containing the deposit call and its wait but no
deploy call, and the deploy call lies in the remainder — so if the
fund-transfer step fails, the deployment call is never attempted. -/
theorem deploy_only_after_deposit_finalized (env : Env) (secret a : String)
    (args : List String)
    (h : Event.deploy a args ∈ (deployScriptWith env secret).1) :
    env.depositOk = true ∧ env.depositWaitOk = true ∧
    ∃ P rest,
      (deployScriptWith env secret).1 = P ++ rest ∧
      Event.deposit env.walletAddress ETH_ADDRESS 1000000000000000 ∈ P ∧
      Event.depositWait ∈ P ∧
      (∀ x xs, Event.deploy x xs ∉ P) ∧
      Event.deploy a args ∈ rest := by
  cases hw : env.walletOk with
  | false => simp [deployScriptWith, hw] at h
  | true =>
    cases hl : env.loadArtifactOk with
    | false => simp [deployScriptWith, hw, hl] at h
    | true =>
      cases hdep : env.depositOk with
      | false =>
        simp [deployScriptWith, depositStage, parseEther_point001, hw, hl, hdep] at h
      | true =>
        cases hdw : env.depositWaitOk with
        | false =>
          simp [deployScriptWith, depositStage, parseEther_point001, hw, hl, hdep, hdw] at h
        | true =>
          have hdec : (deployScriptWith env secret).1 =
              [Event.log "Running deploy script for this contract on zkSync!",
               Event.newWallet secret, Event.loadArtifact "Greeter",
               Event.log "Bridging funds from Goerli to zkSync...",
               Event.deposit env.walletAddress ETH_ADDRESS 1000000000000000,
               Event.depositWait] ++ (deployStage env).1 := by
            simp [deployScriptWith, depositStage, parseEther_point001, hw, hl, hdep, hdw]
          refine ⟨rfl, rfl, _, (deployStage env).1, hdec, ?_, ?_, ?_, ?_⟩
          · simp
          · simp
          · intro x xs; simp
          · rw [hdec] at h
            rcases List.mem_append.mp h with h' | h'
            · simp at h'
            · exact h'

/-- Witness for C4: the concrete all-successful run reaches the deploy call. -/
theorem deploy_only_after_deposit_finalized_witness :
    envHappy.depositOk = true ∧ envHappy.depositWaitOk = true ∧
    ∃ P rest,
      (deployScriptWith envHappy "PRIVATE_KEY").1 = P ++ rest ∧
      Event.deposit envHappy.walletAddress ETH_ADDRESS 1000000000000000 ∈ P ∧
      Event.depositWait ∈ P ∧
      (∀ x xs, Event.deploy x xs ∉ P) ∧
      Event.deploy "Greeter" [greeting] ∈ rest :=
  deploy_only_after_deposit_finalized envHappy "PRIVATE_KEY" "Greeter" [greeting]
    (by decide)

/-- Claim C5: getter and setter calls happen only after the deployment call
returns successfully: whenever a `greet` or `setGreeting` call occurs in a
run's trace, the deploy call succeeded and the trace splits into a prefix
that contains the deploy call but no getter or setter call, so every getter
and setter call occurs after the deploy — if the deployment call fails, no
getter or setter call is ever attempted. -/
theorem contract_calls_only_after_deploy (env : Env) (secret : String)
    (h : Event.greetCall ∈ (deployScriptWith env secret).1 ∨
         ∃ s, Event.setGreetingCall s ∈ (deployScriptWith env secret).1) :
    env.deployOk = true ∧
    ∃ P rest,
      (deployScriptWith env secret).1 = P ++ rest ∧
      Event.deploy "Greeter" [greeting] ∈ P ∧
      Event.greetCall ∉ P ∧
      (∀ s, Event.setGreetingCall s ∉ P) := by
  cases hw : env.walletOk with
  | false => rcases h with h | ⟨s, h⟩ <;> simp [deployScriptWith, hw] at h
  | true =>
    cases hl : env.loadArtifactOk with
    | false => rcases h with h | ⟨s, h⟩ <;> simp [deployScriptWith, hw, hl] at h
    | true =>
      cases hdep : env.depositOk with
      | false =>
        rcases h with h | ⟨s, h⟩ <;>
          simp [deployScriptWith, depositStage, parseEther_point001, hw, hl, hdep] at h
      | true =>
        cases hdw : env.depositWaitOk with
        | false =>
          rcases h with h | ⟨s, h⟩ <;>
            simp [deployScriptWith, depositStage, parseEther_point001, hw, hl, hdep, hdw] at h
        | true =>
          cases hdeploy : env.deployOk with
          | false =>
            rcases h with h | ⟨s, h⟩ <;>
              simp [deployScriptWith, depositStage, deployStage, parseEther_point001,
                    hw, hl, hdep, hdw, hdeploy] at h
          | true =>
            have hdec : (deployScriptWith env secret).1 =
                [Event.log "Running deploy script for this contract on zkSync!",
                 Event.newWallet secret, Event.loadArtifact "Greeter",
                 Event.log "Bridging funds from Goerli to zkSync...",
                 Event.deposit env.walletAddress ETH_ADDRESS 1000000000000000,
                 Event.depositWait,
                 Event.log "Bridge complete, deploying contract...",
                 Event.deploy "Greeter" [greeting],
                 Event.log ("Greeter was deployed to " ++ env.contractAddress ++ " on zkSync!")]
                ++ (greetStage env).1 := by
              simp [deployScriptWith, depositStage, deployStage, parseEther_point001,
                    hw, hl, hdep, hdw, hdeploy]
            refine ⟨rfl, _, (greetStage env).1, hdec, ?_, ?_, ?_⟩
            · simp
            · simp
            · intro s; simp


/-- Witness for C5: the concrete all-successful run performs a greet call. -/
theorem contract_calls_only_after_deploy_witness :
    envHappy.deployOk = true ∧
    ∃ P rest,
      (deployScriptWith envHappy "PRIVATE_KEY").1 = P ++ rest ∧
      Event.deploy "Greeter" [greeting] ∈ P ∧
      Event.greetCall ∉ P ∧
      (∀ s, Event.setGreetingCall s ∉ P) :=
  contract_calls_only_after_deploy envHappy "PRIVATE_KEY" (Or.inl (by decide))

/-- Claim C6: the fund transfer deposits the fixed literal amount
`parseEther("0.001") = 10^15` wei in ETH, addressed to the wallet's own
address; a deposit call appears at most once in any run (no retry logic),
and when the deposit call succeeds it is immediately followed by the single
finalization wait (the script blocks until the SDK reports it finalized). -/
theorem deposit_fixed_amount_to_self (env : Env) (secret r t : String) (amt : Nat)
    (h : Event.deposit r t amt ∈ (deployScriptWith env secret).1) :
    r = env.walletAddress ∧ t = ETH_ADDRESS ∧ amt = 1000000000000000 ∧
    parseEther "0.001" = some 1000000000000000 ∧
    ((deployScriptWith env secret).1.filter isDepositEvent).length ≤ 1 ∧
    (env.depositOk = true →
      ∃ P rest, (deployScriptWith env secret).1
        = P ++ Event.deposit env.walletAddress ETH_ADDRESS 1000000000000000
            :: Event.depositWait :: rest) := by
  cases hw : env.walletOk with
  | false => simp [deployScriptWith, hw] at h
  | true =>
    cases hl : env.loadArtifactOk with
    | false => simp [deployScriptWith, hw, hl] at h
    | true =>
      cases hdep : env.depositOk with
      | false =>
        have hdec : (deployScriptWith env secret).1 =
            [Event.log "Running deploy script for this contract on zkSync!",
             Event.newWallet secret, Event.loadArtifact "Greeter",
             Event.log "Bridging funds from Goerli to zkSync...",
             Event.deposit env.walletAddress ETH_ADDRESS 1000000000000000] := by
          simp [deployScriptWith, depositStage, parseEther_point001, hw, hl, hdep]
        rw [hdec] at h
        simp at h
        obtain ⟨hr, ht, ha⟩ := h
        refine ⟨hr, ht, ha, rfl, ?_, ?_⟩
        · rw [hdec]; simp [isDepositEvent]
        · intro hc; cases hc
      | true =>
        cases hdw : env.depositWaitOk with
        | false =>
          have hdec : (deployScriptWith env secret).1 =
              [Event.log "Running deploy script for this contract on zkSync!",
               Event.newWallet secret, Event.loadArtifact "Greeter",
               Event.log "Bridging funds from Goerli to zkSync...",
               Event.deposit env.walletAddress ETH_ADDRESS 1000000000000000,
               Event.depositWait] := by
            simp [deployScriptWith, depositStage, parseEther_point001, hw, hl, hdep, hdw]
          rw [hdec] at h
          simp at h
          obtain ⟨hr, ht, ha⟩ := h
          refine ⟨hr, ht, ha, rfl, ?_, ?_⟩
          · rw [hdec]; simp [isDepositEvent]
          · intro _
            exact ⟨[Event.log "Running deploy script for this contract on zkSync!",
                    Event.newWallet secret, Event.loadArtifact "Greeter",
                    Event.log "Bridging funds from Goerli to zkSync..."], [],
                   by rw [hdec]; rfl⟩
        | true =>
          have hdec : (deployScriptWith env secret).1 =
              [Event.log "Running deploy script for this contract on zkSync!",
               Event.newWallet secret, Event.loadArtifact "Greeter",
               Event.log "Bridging funds from Goerli to zkSync...",
               Event.deposit env.walletAddress ETH_ADDRESS 1000000000000000,
               Event.depositWait] ++ (deployStage env).1 := by
            simp [deployScriptWith, depositStage, parseEther_point001, hw, hl, hdep, hdw]
          rw [hdec] at h
          rcases List.mem_append.mp h with h' | h'
          · simp at h'
            obtain ⟨hr, ht, ha⟩ := h'
            refine ⟨hr, ht, ha, rfl, ?_, ?_⟩
            · rw [hdec]
              simp [List.filter_append, isDepositEvent, deployStage_filter_dep env]
            · intro _
              exact ⟨[Event.log "Running deploy script for this contract on zkSync!",
                      Event.newWallet secret, Event.loadArtifact "Greeter",
                      Event.log "Bridging funds from Goerli to zkSync..."],
                     (deployStage env).1, by rw [hdec]; simp⟩
          · exact absurd h' (deposit_not_mem_deployStage env r t amt)


/-- Witness for C6: the deposit event of the concrete all-successful run. -/
theorem deposit_fixed_amount_to_self_witness :
    "0xWALLET" = envHappy.walletAddress ∧ "0x0000000000000000000000000000000000000000" = ETH_ADDRESS ∧
    (1000000000000000 : Nat) = 1000000000000000 ∧
    parseEther "0.001" = some 1000000000000000 ∧
    ((deployScriptWith envHappy "PRIVATE_KEY").1.filter isDepositEvent).length ≤ 1 ∧
    (envHappy.depositOk = true →
      ∃ P rest, (deployScriptWith envHappy "PRIVATE_KEY").1
        = P ++ Event.deposit envHappy.walletAddress ETH_ADDRESS 1000000000000000
            :: Event.depositWait :: rest) :=
  deposit_fixed_amount_to_self envHappy "PRIVATE_KEY" "0xWALLET"
    "0x0000000000000000000000000000000000000000" 1000000000000000 (by decide)
